import Mathlib

/-!
# HostedCluster platform reconciler

A shallow embedding of `HostedClusterPlatformReconciler.Reconcile`
(`platform/controllers/hostedClusterPlatform_controller.go`) together with the
status types of `api/v1alpha1/hostedclusterinfrastructure_types.go`.

The reconciler talks to four collaborators: the resource store (`Client.Get`,
`Client.Status().Update`), the secret store (`Client.Get` on secrets) and the
provider adapter (`aws.CreateCluster`, `aws.DestroyCluster`).  Every call site is
executed at most once per reconciliation, so one run is determined by the outcome
of each call site; these outcomes are collected in `World`.  `Reconcile` returns
the ordered list of calls it made together with the way it ended.

Conventions of the embedding:
* a Go pointer that may be nil is an `Option`; dereferencing `none` ends the run
  with `Outcome.panicked`;
* a nil `error` is `none`; `fmt.Errorf("...: %w", err)` is `GoError.wrapf`;
* byte strings (`[]byte`) are `String`s, and a missing map key reads as `""`;
* a `Client.Get` that fails leaves the destination object as it was, and one that
  succeeds overwrites it;
* `meta.SetStatusCondition` and `apierrors.IsConflict` are the library functions of
  k8s.io/apimachinery, embedded alongside the controller.
-/

set_option autoImplicit false

namespace Hypershift

/-! ## Errors -/

/-- `metav1.StatusReason`, a string type; the empty string is `StatusReasonUnknown`. -/
abbrev StatusReason := String

/-- `metav1.StatusReasonNotFound`. -/
def StatusReasonNotFound : StatusReason := "NotFound"

/-- `metav1.StatusReasonConflict`. -/
def StatusReasonConflict : StatusReason := "Conflict"

/-- `http.StatusNotFound`. -/
def StatusNotFound : Int := 404

/-- `http.StatusConflict`. -/
def StatusConflict : Int := 409

/-- The table `knownReasons` of `apierrors`: every reason constant of `metav1` except
`StatusReasonUnknown`. -/
def knownReasons : List StatusReason :=
  ["Unauthorized", "Forbidden", "NotFound", "AlreadyExists", "Conflict", "Gone", "Invalid",
    "ServerTimeout", "Timeout", "TooManyRequests", "BadRequest", "MethodNotAllowed",
    "NotAcceptable", "RequestEntityTooLarge", "UnsupportedMediaType", "InternalError",
    "Expired", "ServiceUnavailable"]

/-- A Go `error` value: an API status error with its reason and HTTP code, any other
error, or the result of `fmt.Errorf(pfx + "%w", inner)`. -/
inductive GoError where
  | status (reason : StatusReason) (code : Int) (message : String)
  | other (message : String)
  | wrapf (pfx : String) (inner : GoError)
deriving DecidableEq, Repr

/-- The text of an error, `err.Error()`. -/
def GoError.Error : GoError → String
  | .status _ _ m => m
  | .other m => m
  | .wrapf p e => p ++ e.Error

/-- `apierrors.reasonAndCodeForError`: the reason and code of the first API status
error in the unwrap chain, and `(StatusReasonUnknown, 0)` when there is none. -/
def reasonAndCodeForError : GoError → StatusReason × Int
  | .status r c _ => (r, c)
  | .other _ => ("", 0)
  | .wrapf _ e => reasonAndCodeForError e

/-- `apierrors.IsConflict`: the reason is `Conflict`, or the reason is not a known one
and the code is 409. -/
def IsConflict (err : GoError) : Bool :=
  let rc := reasonAndCodeForError err
  decide (rc.1 = StatusReasonConflict) ||
    (!decide (rc.1 ∈ knownReasons) && decide (rc.2 = StatusConflict))

/-- `apierrors.IsNotFound`: the reason is `NotFound`, or the reason is not a known one
and the code is 404. -/
def IsNotFound (err : GoError) : Bool :=
  let rc := reasonAndCodeForError err
  decide (rc.1 = StatusReasonNotFound) ||
    (!decide (rc.1 ∈ knownReasons) && decide (rc.2 = StatusNotFound))

/-! ## Conditions (`metav1.Condition`, `meta.SetStatusCondition`) -/

/-- A `metav1.Time`; `0` is the zero time. -/
abbrev Time := Nat

/-- `metav1.ConditionTrue`. -/
def ConditionTrue : String := "True"

/-- `metav1.ConditionFalse`. -/
def ConditionFalse : String := "False"

/-- `metav1.Condition`. -/
structure Condition where
  Typ : String := ""
  Status : String := ""
  ObservedGeneration : Int := 0
  LastTransitionTime : Time := 0
  Reason : String := ""
  Message : String := ""
deriving DecidableEq, Repr

/-- `meta.FindStatusCondition`: the first condition of the given type. -/
def FindStatusCondition (conditions : List Condition) (conditionType : String) :
    Option Condition :=
  conditions.find? (fun c => decide (c.Typ = conditionType))

/-- The in-place write `meta.SetStatusCondition` performs on the entry it found. -/
def mergeCondition (now : Time) (existing newCondition : Condition) : Condition :=
  let e1 : Condition :=
    if existing.Status ≠ newCondition.Status then
      { existing with
        Status := newCondition.Status
        LastTransitionTime :=
          if newCondition.LastTransitionTime ≠ 0 then newCondition.LastTransitionTime
          else now }
    else existing
  { e1 with
    Reason := newCondition.Reason
    Message := newCondition.Message
    ObservedGeneration := newCondition.ObservedGeneration }

/-- Rewrites the first entry of type `conditionType` (the entry
`FindStatusCondition` points to) and leaves every other entry alone. -/
def updateFirst (conditionType : String) (f : Condition → Condition) :
    List Condition → List Condition
  | [] => []
  | c :: cs =>
    if c.Typ = conditionType then f c :: cs else c :: updateFirst conditionType f cs

/-- `meta.SetStatusCondition` (k8s.io/apimachinery): when no entry of the condition's
type exists the condition is appended, its transition time defaulting to the clock;
otherwise the first entry of that type is updated in place: status and transition
time when the status changes, and reason, message and observed generation always. -/
def SetStatusCondition (now : Time) (conditions : List Condition)
    (newCondition : Condition) : List Condition :=
  match FindStatusCondition conditions newCondition.Typ with
  | none =>
    conditions ++
      [{ newCondition with
         LastTransitionTime :=
           if newCondition.LastTransitionTime = 0 then now
           else newCondition.LastTransitionTime }]
  | some _ =>
    updateFirst newCondition.Typ (fun e => mergeCondition now e newCondition) conditions

/-! ## API types -/

/-- Modelled from the spec: the constant `hyperv1.CloudProviderConfigured` is declared
outside the available sources; the spec names the condition type. -/
def CloudProviderConfigured : String := "CloudProviderConfigured"

/-- Modelled from the spec: the constant `hyperv1.CloudProviderConfiguredAsExpected`
is declared outside the available sources; the spec gives the reason code. -/
def CloudProviderConfiguredAsExpected : String := "AsExpected"

/-- Modelled from the spec: the constant `hyperv1.CloudProviderMisConfiguredReason`
is declared outside the available sources; the spec gives the reason code. -/
def CloudProviderMisConfiguredReason : String := "MisConfigured"

/-- Modelled from the spec: the constant `hyperv1.OpenShiftSDN` is declared outside
the available sources. -/
def OpenShiftSDN : String := "OpenShiftSDN"

/-- `AWSResourceReference`, with the one field the controller reads. -/
structure AWSResourceReference where
  ID : Option String := none
deriving DecidableEq, Repr

/-- `AWSCloudProviderConfig`. -/
structure AWSCloudProviderConfig where
  Subnet : Option AWSResourceReference := none
  Zone : String := ""
  VPC : String := ""
deriving DecidableEq, Repr

/-- `AWSRoleCredentials`. -/
structure AWSRoleCredentials where
  ARN : String := ""
  Namespace : String := ""
  Name : String := ""
deriving DecidableEq, Repr

/-- Modelled from the spec: the declaration of `AWSPlatformSpec` is outside the
available sources; these are the fields `Reconcile` reads. -/
structure AWSPlatformSpec where
  Region : String := ""
  CloudProviderConfig : Option AWSCloudProviderConfig := none
  Roles : List AWSRoleCredentials := []
deriving DecidableEq, Repr

/-- Modelled from the spec: the declaration of `PlatformSpec` is outside the
available sources; `AWS` is a pointer that is nil for the other providers. -/
structure PlatformSpec where
  Typ : String := ""
  AWS : Option AWSPlatformSpec := none
deriving DecidableEq, Repr

/-- `DNSSpec`. -/
structure DNSSpec where
  BaseDomain : String := ""
deriving DecidableEq, Repr

/-- `corev1.LocalObjectReference`. -/
structure LocalObjectReference where
  Name : String := ""
deriving DecidableEq, Repr

/-- `Release`. -/
structure Release where
  Image : String := ""
deriving DecidableEq, Repr

/-- Modelled from the spec: the declaration of `HostedClusterSpec` is outside the
available sources; these are the fields `Reconcile` reads. -/
structure HostedClusterSpec where
  Release : Release := {}
  PullSecret : LocalObjectReference := {}
  InfraID : String := ""
  Platform : PlatformSpec := {}
  DNS : DNSSpec := {}
deriving DecidableEq, Repr

/-- The status sub-resource: the condition list and the phase
(`HostedClusterInfrastructureStatus`). -/
structure HostedClusterStatus where
  Conditions : List Condition := []
  Phase : String := ""
deriving DecidableEq, Repr

/-- Modelled from the spec: the declaration of `HostedCluster` is outside the
available sources; object metadata is flattened into the fields `Reconcile` reads. -/
structure HostedCluster where
  Namespace : String := ""
  Name : String := ""
  Generation : Int := 0
  DeletionTimestamp : Option Time := none
  Spec : HostedClusterSpec := {}
  Status : HostedClusterStatus := {}
deriving DecidableEq, Repr

/-- The `Data` of a `v1.Secret`: a map from keys to byte strings. -/
structure Secret where
  Data : List (String × String) := []
deriving DecidableEq, Repr

/-- Map lookup `s.Data[key]`; a missing key gives the empty byte string. -/
def Secret.lookup (s : Secret) (key : String) : String :=
  match s.Data.find? (fun kv => decide (kv.1 = key)) with
  | some kv => kv.2
  | none => ""

/-! ## Provider adapter options -/

/-- `core.AWSPlatformOptions`. -/
structure AWSPlatformOptions where
  AWSCredentialsFile : String := ""
  AWSKey : String := ""
  AWSSecretKey : String := ""
  Region : String := ""
  BaseDomain : String := ""
  InstanceType : String := ""
  RootVolumeType : String := ""
  RootVolumeSize : Int := 0
  RootVolumeIOPS : Int := 0
deriving DecidableEq, Repr

/-- `core.CreateOptions`. -/
structure CreateOptions where
  Namespace : String := ""
  Name : String := ""
  ReleaseImage : String := ""
  ControlPlaneOperatorImage : String := ""
  PullSecretFile : String := ""
  PullSecret : String := ""
  SSHKeyFile : String := ""
  NodePoolReplicas : Int := 0
  Render : Bool := false
  InfrastructureJSON : String := ""
  InfraID : String := ""
  Annotations : List String := []
  NetworkType : String := ""
  FIPS : Bool := false
  AutoRepair : Bool := false
  ControlPlaneAvailabilityPolicy : String := ""
  InfrastructureAvailabilityPolicy : String := ""
  EtcdStorageClass : String := ""
  AWSPlatform : AWSPlatformOptions := {}
deriving DecidableEq, Repr

/-- `core.AWSPlatformDestroyOptions`. -/
structure AWSPlatformDestroyOptions where
  AWSCredentialsFile : String := ""
  AWSKey : String := ""
  AWSSecretKey : String := ""
  PreserveIAM : Bool := false
  Region : String := ""
  BaseDomain : String := ""
deriving DecidableEq, Repr

/-- A `time.Duration` of one minute, in nanoseconds. -/
def Minute : Int := 60 * 1000000000

/-- `core.DestroyOptions`. -/
structure DestroyOptions where
  Namespace : String := ""
  Name : String := ""
  InfraID : String := ""
  AWSPlatform : AWSPlatformDestroyOptions := {}
  ClusterGracePeriod : Int := 0
deriving DecidableEq, Repr

/-! ## Runs of the reconciler -/

/-- `ctrl.Request`: the namespaced name of the resource to reconcile. -/
structure Request where
  Namespace : String := ""
  Name : String := ""
deriving DecidableEq, Repr

/-- `ctrl.Result`. -/
structure Result where
  Requeue : Bool := false
  RequeueAfter : Int := 0
deriving DecidableEq, Repr

/-- One observable step of a reconciliation, with its arguments. -/
inductive Call where
  | getHostedCluster (ns name : String)
  | getSecret (ns name : String)
  | setStatusCondition (condition : Condition)
  | updateStatus (hc : HostedCluster)
  | createCluster (opts : CreateOptions)
  | destroyCluster (opts : DestroyOptions)
deriving DecidableEq, Repr

/-- How a reconciliation ends: it returns `(ctrl.Result, error)`, or it panics. -/
inductive Outcome where
  | returned (res : Result) (err : Option GoError)
  | panicked (message : String)
deriving DecidableEq, Repr

/-- A run: the calls made, in order, and the way the run ended. -/
structure Run where
  trace : List Call
  out : Outcome
deriving DecidableEq, Repr

/-- The outcome of every collaborator call site of `Reconcile`, and the clock. -/
structure World where
  /-- The clock read by `meta.SetStatusCondition`. -/
  now : Time
  /-- Line 60: `r.Client.Get(ctx, req.NamespacedName, &hc)`. -/
  getHostedCluster : Except GoError HostedCluster
  /-- Line 103: the fetch of the secret named "aws". -/
  getProviderSecret : Except GoError Secret
  /-- Line 108: the fetch of the pull secret. -/
  getPullSecret : Except GoError Secret
  /-- Line 163: `aws.DestroyCluster`; `none` is a nil error. -/
  destroyCluster : Option GoError
  /-- Line 172: `aws.CreateCluster`; `none` is a nil error. -/
  createCluster : Option GoError
  /-- Line 173: the second `r.Client.Get` of the resource. -/
  refetch : Except GoError HostedCluster
  /-- Lines 91 and 187: `r.Client.Status().Update`; `none` is a nil error. -/
  updateStatus : Option GoError

/-- The test of lines 76 to 79: the subnet identifier is present and there is at
least one IAM role. -/
def awsConfigured (pAWS : AWSPlatformSpec) : Bool :=
  match pAWS.CloudProviderConfig with
  | none => false
  | some cfg =>
    match cfg.Subnet with
    | none => false
    | some subnet => subnet.ID.isSome && decide (pAWS.Roles.length > 0)

/-- Lines 80 to 86: the verdict of the validation pass written into `condition`. -/
def validationCondition (condition : Condition) (pAWS : AWSPlatformSpec) : Condition :=
  if awsConfigured pAWS then
    { condition with
      Status := ConditionTrue
      Message := ""
      Reason := CloudProviderConfiguredAsExpected }
  else
    { condition with
      Status := ConditionFalse
      Message := "One or more AWS configurations failed, review the logs"
      Reason := CloudProviderMisConfiguredReason }

/-- Lines 175 to 183: the outcome of `aws.CreateCluster` written into `condition`. -/
def createCondition (condition : Condition) (err : Option GoError) : Condition :=
  match err with
  | none =>
    { condition with
      Status := ConditionTrue
      Message := ""
      Reason := CloudProviderConfiguredAsExpected }
  | some e =>
    { condition with
      Status := ConditionFalse
      Message := e.Error
      Reason := CloudProviderMisConfiguredReason }

/-- Lines 88 to 97 and 184 to 193: upsert the condition into `hc`, submit the
status, and translate a failed update; `onSuccess` is what follows a nil error. -/
def persistStatus (w : World) (trace : List Call) (hc : HostedCluster)
    (condition : Condition) (onSuccess : Outcome) : Run :=
  let hc1 : HostedCluster :=
    { hc with
      Status :=
        { hc.Status with
          Conditions := SetStatusCondition w.now hc.Status.Conditions condition } }
  let trace1 := trace ++ [Call.setStatusCondition condition, Call.updateStatus hc1]
  match w.updateStatus with
  | some err =>
    if IsConflict err then ⟨trace1, .returned { Requeue := true } none⟩
    else ⟨trace1, .returned {} (some (.wrapf "failed to update status: " err))⟩
  | none => ⟨trace1, onSuccess⟩

/-- Lines 113 to 144: the create options assembled from the resource and the two
secrets; `pAWS` is the dereferenced `hc.Spec.Platform.AWS`. -/
def createOptions (hc : HostedCluster) (pAWS : AWSPlatformSpec)
    (providerSecret pullSecret : Secret) : CreateOptions :=
  { Namespace := hc.Namespace
    Name := hc.Name
    ReleaseImage := hc.Spec.Release.Image
    ControlPlaneOperatorImage := ""
    PullSecretFile := ""
    PullSecret := pullSecret.lookup ".dockerconfigjson"
    SSHKeyFile := ""
    NodePoolReplicas := 2
    Render := false
    InfrastructureJSON := ""
    InfraID := hc.Spec.InfraID
    Annotations := []
    NetworkType := OpenShiftSDN
    FIPS := false
    AutoRepair := false
    ControlPlaneAvailabilityPolicy := "SingleReplica"
    InfrastructureAvailabilityPolicy := "HighlyAvailable"
    EtcdStorageClass := ""
    AWSPlatform :=
      { AWSCredentialsFile := ""
        AWSKey := providerSecret.lookup "aws_access_key_id"
        AWSSecretKey := providerSecret.lookup "aws_secret_access_key"
        Region := pAWS.Region
        BaseDomain := hc.Spec.DNS.BaseDomain
        InstanceType := "t3.2xlarge"
        RootVolumeType := "gp2"
        RootVolumeSize := 16
        RootVolumeIOPS := 0 } }

/-- Lines 148 to 161: the destroy options derived from the create options. -/
def destroyOptions (opts : CreateOptions) : DestroyOptions :=
  { Namespace := opts.Namespace
    Name := opts.Name
    InfraID := opts.InfraID
    AWSPlatform :=
      { AWSCredentialsFile := ""
        AWSKey := opts.AWSPlatform.AWSKey
        AWSSecretKey := opts.AWSPlatform.AWSSecretKey
        PreserveIAM := false
        Region := opts.AWSPlatform.Region
        BaseDomain := opts.AWSPlatform.BaseDomain }
    ClusterGracePeriod := 10 * Minute }

/-- The message of the runtime panic raised by dereferencing a nil pointer. -/
def nilDereference : String :=
  "runtime error: invalid memory address or nil pointer dereference"

/-- Line 173: `r.Client.Get(ctx, req.NamespacedName, &hc)` with its error ignored.  A
successful fetch overwrites `hc`; a failed one leaves it as it was. -/
def afterRefetch (w : World) (hc : HostedCluster) : HostedCluster :=
  match w.refetch with
  | .ok fresh => fresh
  | .error _ => hc

/-- Lines 146 to 195: teardown, or creation followed by the status write. -/
def provision (w : World) (req : Request) (trace : List Call) (hc : HostedCluster)
    (condition : Condition) (opts : CreateOptions) : Run :=
  match hc.DeletionTimestamp with
  | some _ =>
    let trace1 := trace ++ [Call.destroyCluster (destroyOptions opts)]
    match w.destroyCluster with
    | some err => ⟨trace1, .returned {} (some (.wrapf "failed to update status: " err))⟩
    | none => ⟨trace1, .returned {} none⟩
  | none =>
    if hc.Spec.InfraID = "" then
      let trace1 :=
        trace ++ [Call.createCluster opts, Call.getHostedCluster req.Namespace req.Name]
      persistStatus w trace1 (afterRefetch w hc) (createCondition condition w.createCluster)
        (.returned {} w.createCluster)
    else ⟨trace, .returned {} none⟩

/-- Lines 100 to 144: fetch the two prerequisite secrets and assemble the options;
`hc.Spec.Platform.AWS.Region` dereferences the AWS section without a nil check. -/
def prepare (w : World) (req : Request) (trace : List Call) (hc : HostedCluster)
    (condition : Condition) : Run :=
  let trace1 := trace ++ [Call.getSecret hc.Namespace "aws"]
  match w.getProviderSecret with
  | .error err => ⟨trace1, .returned {} (some err)⟩
  | .ok providerSecret =>
    let trace2 := trace1 ++ [Call.getSecret hc.Namespace hc.Spec.PullSecret.Name]
    match w.getPullSecret with
    | .error err => ⟨trace2, .returned {} (some err)⟩
    | .ok pullSecret =>
      match hc.Spec.Platform.AWS with
      | none => ⟨trace2, .panicked nilDereference⟩
      | some pAWS =>
        provision w req trace2 hc condition (createOptions hc pAWS providerSecret pullSecret)

/-- `HostedClusterPlatformReconciler.Reconcile`. -/
def Reconcile (w : World) (req : Request) : Run :=
  let trace := [Call.getHostedCluster req.Namespace req.Name]
  match w.getHostedCluster with
  | .error _ => ⟨trace, .returned {} none⟩
  | .ok hc =>
    let condition : Condition :=
      { Typ := CloudProviderConfigured, ObservedGeneration := hc.Generation }
    if hc.Spec.InfraID ≠ "" ∧ hc.DeletionTimestamp = none then
      match hc.Spec.Platform.AWS with
      | some pAWS =>
        persistStatus w trace hc (validationCondition condition pAWS) (.returned {} none)
      | none => prepare w req trace hc condition
    else prepare w req trace hc condition

/-! ## Observations on runs -/

/-- The call is an invocation of `aws.CreateCluster`. -/
def Call.isCreate : Call → Bool
  | .createCluster _ => true
  | _ => false

/-- The call is an invocation of `aws.DestroyCluster`. -/
def Call.isDestroy : Call → Bool
  | .destroyCluster _ => true
  | _ => false

/-- The call is a status update. -/
def Call.isUpdateStatus : Call → Bool
  | .updateStatus _ => true
  | _ => false

/-- The call is an upsert of a condition. -/
def Call.isSetStatusCondition : Call → Bool
  | .setStatusCondition _ => true
  | _ => false

/-- The objects submitted by the status updates of a run, in order. -/
def submitted (r : Run) : List HostedCluster :=
  r.trace.filterMap (fun c => match c with
    | .updateStatus hc => some hc
    | _ => none)

/-- The validation path: the run is the initial fetch, one upsert of `condition`
and one status update submitting `hc1`, and nothing else. -/
def validationPath (req : Request) (condition : Condition) (hc1 : HostedCluster)
    (r : Run) : Prop :=
  r.trace =
    [Call.getHostedCluster req.Namespace req.Name, Call.setStatusCondition condition,
      Call.updateStatus hc1]

/-- The condition `Reconcile` starts from (lines 66 to 69). -/
def initialCondition (hc : HostedCluster) : Condition :=
  { Typ := CloudProviderConfigured, ObservedGeneration := hc.Generation }

/-- The object `hc` after `meta.SetStatusCondition(&hc.Status.Conditions, condition)`. -/
def withCondition (now : Time) (hc : HostedCluster) (condition : Condition) :
    HostedCluster :=
  { hc with
    Status :=
      { hc.Status with
        Conditions := SetStatusCondition now hc.Status.Conditions condition } }

/-- The subnet identifier of the AWS section is present: `CloudProviderConfig`, its
`Subnet` and the subnet `ID` are all non-nil. -/
def subnetPresent (pAWS : AWSPlatformSpec) : Prop :=
  ∃ cfg subnet id,
    pAWS.CloudProviderConfig = some cfg ∧ cfg.Subnet = some subnet ∧ subnet.ID = some id

/-- The `CloudProviderConfigured` entry of a resource's condition list. -/
def cloudProviderCondition (hc : HostedCluster) : Option Condition :=
  FindStatusCondition hc.Status.Conditions CloudProviderConfigured

/-! ## Concrete resources and collaborators -/

/-- The request for the resource `clusters/demo`. -/
def demoRequest : Request := { Namespace := "clusters", Name := "demo" }

/-- A provider-credential secret. -/
def awsSecret : Secret :=
  { Data := [("aws_access_key_id", "AKIAEXAMPLE"), ("aws_secret_access_key", "s3cr3t")] }

/-- A pull secret. -/
def demoPullSecret : Secret := { Data := [(".dockerconfigjson", "auths")] }

/-- A fully configured AWS section: a subnet identifier and one IAM role. -/
def fullAWS : AWSPlatformSpec :=
  { Region := "us-east-1"
    CloudProviderConfig := some { Subnet := some { ID := some "subnet-0a1b" } }
    Roles := [{ ARN := "arn:aws:iam::1:role/cloud", Namespace := "kube-system", Name := "cloud" }] }

/-- The spec of an AWS cluster whose infra identifier is `infraID`. -/
def awsSpec (infraID : String) (pAWS : AWSPlatformSpec) : HostedClusterSpec :=
  { Release := { Image := "quay.io/release:4.10" }
    PullSecret := { Name := "pull-secret" }
    InfraID := infraID
    Platform := { Typ := "AWS", AWS := some pAWS }
    DNS := { BaseDomain := "example.com" } }

/-- The spec of an Azure cluster: the AWS section is nil. -/
def azureSpec (infraID : String) : HostedClusterSpec :=
  { Release := { Image := "quay.io/release:4.10" }
    PullSecret := { Name := "pull-secret" }
    InfraID := infraID
    Platform := { Typ := "Azure", AWS := none }
    DNS := { BaseDomain := "example.com" } }

/-- A condition of another type, already on the resource. -/
def otherCondition : Condition :=
  { Typ := "Available", Status := "True", ObservedGeneration := 2, LastTransitionTime := 5,
    Reason := "AsExpected" }

/-- A stale `CloudProviderConfigured` condition of generation 1. -/
def staleCondition : Condition :=
  { Typ := "CloudProviderConfigured", Status := "False", ObservedGeneration := 1,
    LastTransitionTime := 4, Reason := "MisConfigured", Message := "old" }

/-- The resource `clusters/demo` at generation 3 with the given spec. -/
def demoCluster (spec : HostedClusterSpec) (deletion : Option Time) : HostedCluster :=
  { Namespace := "clusters", Name := "demo", Generation := 3, DeletionTimestamp := deletion,
    Spec := spec
    Status := { Conditions := [otherCondition, staleCondition], Phase := "INIT" } }

/-- A provisioned, fully configured AWS cluster. -/
def provisioned : HostedCluster := demoCluster (awsSpec "abc-123" fullAWS) none

/-- A provisioned cluster of another provider. -/
def provisionedAzure : HostedCluster := demoCluster (azureSpec "abc-123") none

/-- A provisioned AWS cluster marked for deletion. -/
def deleting : HostedCluster := demoCluster (awsSpec "abc-123" fullAWS) (some 100)

/-- A cluster of another provider marked for deletion. -/
def deletingAzure : HostedCluster := demoCluster (azureSpec "abc-123") (some 100)

/-- An unprovisioned AWS cluster. -/
def unprovisioned : HostedCluster :=
  demoCluster (awsSpec "" { Region := "us-east-1" }) none

/-- The unprovisioned cluster as a concurrent writer left it: a newer generation
and one more condition. -/
def unprovisionedLater : HostedCluster :=
  { unprovisioned with
    Generation := 4
    Status := { Conditions := [otherCondition], Phase := "INFRA" } }

/-- The world in which `hc` is fetched and every collaborator succeeds. -/
def okWorld (hc : HostedCluster) : World :=
  { now := 9
    getHostedCluster := .ok hc
    getProviderSecret := .ok awsSecret
    getPullSecret := .ok demoPullSecret
    destroyCluster := none
    createCluster := none
    refetch := .ok hc
    updateStatus := none }

/-- The error of a secret that does not exist. -/
def secretNotFound : GoError := .status "NotFound" 404 "secrets not found"

/-- An optimistic-concurrency conflict on the status write. -/
def conflictError : GoError :=
  .status "Conflict" 409
    "the object has been modified; please apply your changes to the latest version"

/-- A request that timed out at the resource store. -/
def timeoutError : GoError :=
  .status "Timeout" 504 "the server was unable to return a response in time"

/-- A status write rejected with HTTP code 409 and no reason. -/
def bareConflictError : GoError := .status "" 409 "conflict"

/-- A status write rejected because the server is unavailable. -/
def unavailableError : GoError := .status "ServiceUnavailable" 503 "etcd is unavailable"

/-- A failure of the provider adapter. -/
def providerError : GoError := .other "VPC limit exceeded"

/-! ## The condition ledger -/

theorem find_updateFirst (t : String) (f : Condition → Condition)
    (hf : ∀ e, e.Typ = t → (f e).Typ = t) (l : List Condition) (e : Condition)
    (h : FindStatusCondition l t = some e) :
    FindStatusCondition (updateFirst t f l) t = some (f e) := by
  induction l with
  | nil => simp [FindStatusCondition] at h
  | cons c cs ih =>
    by_cases hc : c.Typ = t
    · have hce : c = e := by simpa [FindStatusCondition, List.find?, hc] using h
      subst hce
      simp [updateFirst, hc, FindStatusCondition, List.find?, hf c hc]
    · have h1 : FindStatusCondition cs t = some e := by
        simpa [FindStatusCondition, List.find?, hc] using h
      have h2 := ih h1
      simpa [updateFirst, hc, FindStatusCondition, List.find?] using h2

theorem find_typ (l : List Condition) (t : String) (e : Condition)
    (h : FindStatusCondition l t = some e) : e.Typ = t := by
  have := List.find?_some h
  simpa using this

theorem find_append_absent (l : List Condition) (c : Condition)
    (h : FindStatusCondition l c.Typ = none) :
    FindStatusCondition (l ++ [c]) c.Typ = some c := by
  unfold FindStatusCondition at *
  rw [List.find?_append, h]
  simp [List.find?]

theorem mergeCondition_typ (now : Time) (e c : Condition) :
    (mergeCondition now e c).Typ = e.Typ := by
  unfold mergeCondition
  split <;> rfl

theorem mergeCondition_status (now : Time) (e c : Condition) :
    (mergeCondition now e c).Status = c.Status := by
  unfold mergeCondition
  split
  · rfl
  · rename_i h
    simpa using h

/-- After the upsert, the entry found under the condition's type carries the new
status, reason, message and observed generation. -/
theorem find_SetStatusCondition (now : Time) (l : List Condition) (c : Condition) :
    ∃ c1, FindStatusCondition (SetStatusCondition now l c) c.Typ = some c1 ∧
      c1.Typ = c.Typ ∧ c1.Status = c.Status ∧ c1.Reason = c.Reason ∧
      c1.Message = c.Message ∧ c1.ObservedGeneration = c.ObservedGeneration := by
  unfold SetStatusCondition
  cases h : FindStatusCondition l c.Typ with
  | none =>
    refine ⟨_, find_append_absent l
      { c with LastTransitionTime := if c.LastTransitionTime = 0 then now
                                     else c.LastTransitionTime } h, ?_⟩
    simp
  | some e =>
    have he := find_typ l c.Typ e h
    refine ⟨mergeCondition now e c, ?_, ?_, mergeCondition_status now e c, rfl, rfl, rfl⟩
    · exact find_updateFirst c.Typ (fun e => mergeCondition now e c)
        (fun e he => by simp [mergeCondition_typ, he]) l e h
    · rw [mergeCondition_typ, he]

theorem find_none_iff (l : List Condition) (t : String) :
    FindStatusCondition l t = none ↔ ∀ x ∈ l, x.Typ ≠ t := by
  simp [FindStatusCondition]

/-- Upsert of a new type: the condition is appended at the end. -/
theorem SetStatusCondition_absent (now : Time) (l : List Condition) (c : Condition)
    (h : ∀ x ∈ l, x.Typ ≠ c.Typ) :
    SetStatusCondition now l c =
      l ++ [{ c with LastTransitionTime := if c.LastTransitionTime = 0 then now
                                           else c.LastTransitionTime }] := by
  unfold SetStatusCondition
  rw [(find_none_iff l c.Typ).2 h]

theorem updateFirst_split (t : String) (f : Condition → Condition)
    (pre post : List Condition) (old : Condition)
    (hpre : ∀ x ∈ pre, x.Typ ≠ t) (hold : old.Typ = t) :
    updateFirst t f (pre ++ old :: post) = pre ++ f old :: post := by
  induction pre with
  | nil => simp [updateFirst, hold]
  | cons p ps ih =>
    have hp : p.Typ ≠ t := hpre p (by simp)
    have := ih (fun x hx => hpre x (by simp [hx]))
    simp [updateFirst, hp, this]

/-- Upsert of an existing type: the first entry of that type is rewritten where it
stands, and the entries before and after it are untouched. -/
theorem SetStatusCondition_present (now : Time) (pre post : List Condition)
    (old c : Condition) (hpre : ∀ x ∈ pre, x.Typ ≠ c.Typ) (hold : old.Typ = c.Typ) :
    SetStatusCondition now (pre ++ old :: post) c =
      pre ++ mergeCondition now old c :: post := by
  unfold SetStatusCondition
  have hfind : FindStatusCondition (pre ++ old :: post) c.Typ = some old := by
    unfold FindStatusCondition
    rw [List.find?_append]
    have : List.find? (fun x => decide (x.Typ = c.Typ)) pre = none := by
      simpa using hpre
    rw [this]
    simp [List.find?, hold]
  rw [hfind]
  exact updateFirst_split c.Typ _ pre post old hpre hold

theorem updateFirst_filter (t : String) (f : Condition → Condition)
    (hf : ∀ e, e.Typ = t → (f e).Typ = t) (l : List Condition) :
    (updateFirst t f l).filter (fun x => decide (x.Typ ≠ t)) =
      l.filter (fun x => decide (x.Typ ≠ t)) := by
  induction l with
  | nil => rfl
  | cons c cs ih =>
    by_cases hc : c.Typ = t
    · simp [updateFirst, hc, hf c hc]
    · have ih1 := ih
      simp only [ne_eq, decide_not] at ih1
      simp [updateFirst, hc, ih1]

/-- The upsert keeps every condition of another type, with its value and in the
same relative order. -/
theorem SetStatusCondition_filter (now : Time) (l : List Condition) (c : Condition) :
    (SetStatusCondition now l c).filter (fun x => decide (x.Typ ≠ c.Typ)) =
      l.filter (fun x => decide (x.Typ ≠ c.Typ)) := by
  unfold SetStatusCondition
  cases h : FindStatusCondition l c.Typ with
  | none => simp
  | some e =>
    exact updateFirst_filter c.Typ _ (fun e he => by simp [mergeCondition_typ, he]) l

theorem exists_first_of_type (l : List Condition) (t : String)
    (h : ∃ x ∈ l, x.Typ = t) :
    ∃ pre old post, l = pre ++ old :: post ∧ (∀ x ∈ pre, x.Typ ≠ t) ∧ old.Typ = t := by
  induction l with
  | nil => simp at h
  | cons c cs ih =>
    by_cases hc : c.Typ = t
    · exact ⟨[], c, cs, rfl, by simp, hc⟩
    · have h1 : ∃ x ∈ cs, x.Typ = t := by
        obtain ⟨x, hx, hxt⟩ := h
        rcases List.mem_cons.1 hx with rfl | hx
        · exact absurd hxt hc
        · exact ⟨x, hx, hxt⟩
      obtain ⟨pre, old, post, hl, hpre, hold⟩ := ih h1
      refine ⟨c :: pre, old, post, by simp [hl], ?_, hold⟩
      intro x hx
      rcases List.mem_cons.1 hx with rfl | hx
      · exact hc
      · exact hpre x hx

/-! ## The shape of a run -/

theorem persistStatus_trace (w : World) (trace : List Call) (hc : HostedCluster)
    (condition : Condition) (onSuccess : Outcome) :
    (persistStatus w trace hc condition onSuccess).trace =
      trace ++ [Call.setStatusCondition condition,
        Call.updateStatus (withCondition w.now hc condition)] := by
  unfold persistStatus withCondition
  cases w.updateStatus with
  | none => rfl
  | some e => by_cases h : IsConflict e = true <;> simp [h]

theorem persistStatus_out (w : World) (trace : List Call) (hc : HostedCluster)
    (condition : Condition) (onSuccess : Outcome) :
    (persistStatus w trace hc condition onSuccess).out =
      match w.updateStatus with
      | none => onSuccess
      | some e =>
        if IsConflict e then .returned { Requeue := true } none
        else .returned {} (some (.wrapf "failed to update status: " e)) := by
  unfold persistStatus
  cases w.updateStatus with
  | none => rfl
  | some e => by_cases h : IsConflict e = true <;> simp [h]

/-- With an assigned infra identifier, no deletion marker and an AWS section, the
run is the validation pass. -/
theorem Reconcile_validation (w : World) (req : Request) (hc : HostedCluster)
    (pAWS : AWSPlatformSpec) (hget : w.getHostedCluster = .ok hc)
    (hid : hc.Spec.InfraID ≠ "") (hdel : hc.DeletionTimestamp = none)
    (haws : hc.Spec.Platform.AWS = some pAWS) :
    Reconcile w req =
      persistStatus w [Call.getHostedCluster req.Namespace req.Name] hc
        (validationCondition (initialCondition hc) pAWS) (.returned {} none) := by
  simp [Reconcile, hget, hid, hdel, haws, initialCondition]

/-- In every other case the run continues with the prerequisite secrets. -/
theorem Reconcile_prepare (w : World) (req : Request) (hc : HostedCluster)
    (hget : w.getHostedCluster = .ok hc)
    (h : hc.Spec.InfraID = "" ∨ hc.DeletionTimestamp ≠ none ∨ hc.Spec.Platform.AWS = none) :
    Reconcile w req =
      prepare w req [Call.getHostedCluster req.Namespace req.Name] hc
        (initialCondition hc) := by
  rcases h with h | h | h
  · simp [Reconcile, hget, h, initialCondition]
  · simp [Reconcile, hget, h, initialCondition]
  · by_cases hc1 : hc.Spec.InfraID ≠ "" ∧ hc.DeletionTimestamp = none
    · simp [Reconcile, hget, h, hc1, initialCondition]
    · simp [Reconcile, hget, hc1, initialCondition]

/-- When both secrets are fetched and the AWS section is present, the run continues
with teardown or creation. -/
theorem prepare_provision (w : World) (req : Request) (trace : List Call)
    (hc : HostedCluster) (condition : Condition) (providerSecret pullSecret : Secret)
    (pAWS : AWSPlatformSpec) (hps : w.getProviderSecret = .ok providerSecret)
    (hpl : w.getPullSecret = .ok pullSecret) (haws : hc.Spec.Platform.AWS = some pAWS) :
    prepare w req trace hc condition =
      provision w req
        (trace ++ [Call.getSecret hc.Namespace "aws"] ++
          [Call.getSecret hc.Namespace hc.Spec.PullSecret.Name])
        hc condition (createOptions hc pAWS providerSecret pullSecret) := by
  simp [prepare, hps, hpl, haws]

theorem awsConfigured_iff (pAWS : AWSPlatformSpec) :
    awsConfigured pAWS = true ↔ subnetPresent pAWS ∧ 0 < pAWS.Roles.length := by
  unfold awsConfigured subnetPresent
  cases h1 : pAWS.CloudProviderConfig with
  | none => simp
  | some cfg =>
    cases h2 : cfg.Subnet with
    | none => simp [h2]
    | some subnet =>
      cases h3 : subnet.ID with
      | none => simp [h2, h3]
      | some id => simp [h2, h3]

/-- A teardown or secret-fetching run makes no create call unless the resource is
unprovisioned and not being deleted. -/
theorem prepare_no_create (w : World) (req : Request) (trace : List Call)
    (hc : HostedCluster) (condition : Condition)
    (h : hc.Spec.InfraID ≠ "" ∨ hc.DeletionTimestamp ≠ none)
    (ht : trace.any Call.isCreate = false) :
    (prepare w req trace hc condition).trace.any Call.isCreate = false := by
  unfold prepare provision
  cases w.getProviderSecret <;> cases w.getPullSecret <;>
    cases hc.Spec.Platform.AWS <;> cases hd : hc.DeletionTimestamp <;>
    cases w.destroyCluster <;> simp_all [Call.isCreate]

/-- A run that does not take the validation pass and concerns a resource with an
infra identifier or a deletion marker neither upserts a condition nor updates the
status. -/
theorem prepare_no_status (w : World) (req : Request) (trace : List Call)
    (hc : HostedCluster) (condition : Condition)
    (h : hc.Spec.InfraID ≠ "" ∨ hc.DeletionTimestamp ≠ none)
    (ht1 : trace.any Call.isSetStatusCondition = false)
    (ht2 : trace.any Call.isUpdateStatus = false) :
    (prepare w req trace hc condition).trace.any Call.isSetStatusCondition = false ∧
      (prepare w req trace hc condition).trace.any Call.isUpdateStatus = false := by
  unfold prepare provision
  cases w.getProviderSecret <;> cases w.getPullSecret <;>
    cases hc.Spec.Platform.AWS <;> cases hd : hc.DeletionTimestamp <;>
    cases w.destroyCluster <;>
    simp_all [Call.isSetStatusCondition, Call.isUpdateStatus]

/-- The verdict of a validation pass: one status update is submitted, and the
`CloudProviderConfigured` entry of the submitted object carries the verdict. -/
theorem validation_verdict (w : World) (req : Request) (hc : HostedCluster)
    (pAWS : AWSPlatformSpec) (hget : w.getHostedCluster = .ok hc)
    (hid : hc.Spec.InfraID ≠ "") (hdel : hc.DeletionTimestamp = none)
    (haws : hc.Spec.Platform.AWS = some pAWS) :
    ∃ c1,
      (Reconcile w req).trace =
        [Call.getHostedCluster req.Namespace req.Name,
          Call.setStatusCondition (validationCondition (initialCondition hc) pAWS),
          Call.updateStatus
            (withCondition w.now hc (validationCondition (initialCondition hc) pAWS))] ∧
      cloudProviderCondition
          (withCondition w.now hc (validationCondition (initialCondition hc) pAWS)) =
        some c1 ∧
      c1.Status = (validationCondition (initialCondition hc) pAWS).Status ∧
      c1.Reason = (validationCondition (initialCondition hc) pAWS).Reason := by
  have htyp : (validationCondition (initialCondition hc) pAWS).Typ = CloudProviderConfigured := by
    unfold validationCondition initialCondition
    split <;> rfl
  obtain ⟨c1, hfind, -, hst, hre, -, -⟩ :=
    find_SetStatusCondition w.now hc.Status.Conditions
      (validationCondition (initialCondition hc) pAWS)
  refine ⟨c1, ?_, ?_, hst, hre⟩
  · rw [Reconcile_validation w req hc pAWS hget hid hdel haws, persistStatus_trace]
    rfl
  · rw [htyp] at hfind
    exact hfind

theorem validationCondition_true (c : Condition) (pAWS : AWSPlatformSpec)
    (h : subnetPresent pAWS ∧ 0 < pAWS.Roles.length) :
    (validationCondition c pAWS).Status = ConditionTrue ∧
      (validationCondition c pAWS).Reason = CloudProviderConfiguredAsExpected := by
  have := (awsConfigured_iff pAWS).2 h
  simp [validationCondition, this]

theorem validationCondition_false (c : Condition) (pAWS : AWSPlatformSpec)
    (h : ¬ (subnetPresent pAWS ∧ 0 < pAWS.Roles.length)) :
    (validationCondition c pAWS).Status = ConditionFalse ∧
      (validationCondition c pAWS).Reason = CloudProviderMisConfiguredReason := by
  have : awsConfigured pAWS = false := by
    cases hb : awsConfigured pAWS with
    | false => rfl
    | true => exact absurd ((awsConfigured_iff pAWS).1 hb) h
  simp [validationCondition, this]

/-! ## The claims -/

/-- C1 (as stated, refuted): the resource `provisionedAzure` has an infra identifier and
no deletion marker, yet when the provider secret is missing the run fetches a secret,
upserts no condition and issues no status update, so it does not take the validation
path. -/
theorem C1_counterexample :
    provisionedAzure.Spec.InfraID ≠ "" ∧ provisionedAzure.DeletionTimestamp = none ∧
    Reconcile { okWorld provisionedAzure with getProviderSecret := .error secretNotFound }
        demoRequest =
      ⟨[Call.getHostedCluster "clusters" "demo", Call.getSecret "clusters" "aws"],
        .returned {} (some secretNotFound)⟩ ∧
    (Reconcile { okWorld provisionedAzure with getProviderSecret := .error secretNotFound }
        demoRequest).trace.any Call.isUpdateStatus = false ∧
    (Reconcile { okWorld provisionedAzure with getProviderSecret := .error secretNotFound }
        demoRequest).trace.any Call.isSetStatusCondition = false := by
  decide

/-- C1 (amended): for every fetched resource whose infra identifier is non-empty and
whose deletion marker is absent, and for every outcome of the collaborators, the run
never invokes the create operation (nor destroy); when the resource has an AWS
platform section the run is exactly the validation path: the upsert of the
`CloudProviderConfigured` condition followed by one status update. -/
theorem C1_no_recreation (w : World) (req : Request) (hc : HostedCluster)
    (hget : w.getHostedCluster = .ok hc) (hid : hc.Spec.InfraID ≠ "")
    (hdel : hc.DeletionTimestamp = none) :
    (Reconcile w req).trace.any Call.isCreate = false ∧
    (Reconcile w req).trace.any Call.isDestroy = false ∧
    (∀ pAWS, hc.Spec.Platform.AWS = some pAWS →
      (validationCondition (initialCondition hc) pAWS).Typ = CloudProviderConfigured ∧
      validationPath req (validationCondition (initialCondition hc) pAWS)
        (withCondition w.now hc (validationCondition (initialCondition hc) pAWS))
        (Reconcile w req)) := by
  cases haws : hc.Spec.Platform.AWS with
  | none =>
    rw [Reconcile_prepare w req hc hget (Or.inr (Or.inr haws))]
    refine ⟨prepare_no_create w req _ hc _ (Or.inl hid) (by simp [Call.isCreate]), ?_, ?_⟩
    · unfold prepare provision
      cases w.getProviderSecret <;> cases w.getPullSecret <;>
        simp_all [Call.isDestroy]
    · intro pAWS h
      cases h
  | some pAWS =>
    obtain ⟨c1, htrace, -, -, -⟩ := validation_verdict w req hc pAWS hget hid hdel haws
    refine ⟨by simp [htrace, Call.isCreate], by simp [htrace, Call.isDestroy], ?_⟩
    intro p hp
    cases hp
    refine ⟨?_, htrace⟩
    unfold validationCondition initialCondition
    split <;> rfl

/-- C1 (witness): the provisioned AWS cluster `provisioned`. -/
theorem C1_no_recreation_witness :
    provisioned.Spec.InfraID ≠ "" ∧ provisioned.DeletionTimestamp = none ∧
    (Reconcile (okWorld provisioned) demoRequest).trace.any Call.isCreate = false ∧
    (Reconcile (okWorld provisioned) demoRequest).trace.any Call.isDestroy = false :=
  ⟨by decide, rfl,
    (C1_no_recreation (okWorld provisioned) demoRequest provisioned rfl (by decide) rfl).1,
    (C1_no_recreation (okWorld provisioned) demoRequest provisioned rfl (by decide) rfl).2.1⟩

/-- C2 (as stated, refuted): the resource `deleting` has an infra identifier and a
deletion marker, yet when the provider secret is missing the run returns the fetch
error and never invokes destroy. -/
theorem C2_counterexample :
    deleting.Spec.InfraID ≠ "" ∧ deleting.DeletionTimestamp ≠ none ∧
    Reconcile { okWorld deleting with getProviderSecret := .error secretNotFound }
        demoRequest =
      ⟨[Call.getHostedCluster "clusters" "demo", Call.getSecret "clusters" "aws"],
        .returned {} (some secretNotFound)⟩ ∧
    (Reconcile { okWorld deleting with getProviderSecret := .error secretNotFound }
        demoRequest).trace.any Call.isDestroy = false := by
  decide

/-- C2 (amended): for every fetched resource that has both a non-empty infra identifier
and a deletion marker, and for every outcome of the collaborators, the run invokes
neither create nor the validation path (no condition is upserted, no status update is
issued); when both prerequisite secrets are fetched and the AWS platform section is
present it invokes destroy exactly once. -/
theorem C2_deletion_precedence (w : World) (req : Request) (hc : HostedCluster)
    (hget : w.getHostedCluster = .ok hc) (hid : hc.Spec.InfraID ≠ "")
    (hdel : hc.DeletionTimestamp ≠ none) :
    (Reconcile w req).trace.any Call.isCreate = false ∧
    (Reconcile w req).trace.any Call.isSetStatusCondition = false ∧
    (Reconcile w req).trace.any Call.isUpdateStatus = false ∧
    (∀ providerSecret pullSecret pAWS,
      w.getProviderSecret = .ok providerSecret → w.getPullSecret = .ok pullSecret →
      hc.Spec.Platform.AWS = some pAWS →
      (Reconcile w req).trace.countP Call.isDestroy = 1) := by
  rw [Reconcile_prepare w req hc hget (Or.inr (Or.inl hdel))]
  refine ⟨prepare_no_create w req _ hc _ (Or.inl hid) (by simp [Call.isCreate]),
    (prepare_no_status w req _ hc _ (Or.inl hid) (by simp [Call.isSetStatusCondition])
      (by simp [Call.isUpdateStatus])).1,
    (prepare_no_status w req _ hc _ (Or.inl hid) (by simp [Call.isSetStatusCondition])
      (by simp [Call.isUpdateStatus])).2, ?_⟩
  intro providerSecret pullSecret pAWS hps hpl haws
  rw [prepare_provision w req _ hc _ providerSecret pullSecret pAWS hps hpl haws]
  unfold provision
  cases hd : hc.DeletionTimestamp with
  | none => exact absurd hd hdel
  | some t => cases w.destroyCluster <;> simp [List.countP_cons, Call.isDestroy]

/-- C2 (witness): the cluster `deleting`, with every collaborator succeeding. -/
theorem C2_deletion_precedence_witness :
    deleting.Spec.InfraID ≠ "" ∧ deleting.DeletionTimestamp ≠ none ∧
    (Reconcile (okWorld deleting) demoRequest).trace.any Call.isCreate = false ∧
    (Reconcile (okWorld deleting) demoRequest).trace.any Call.isUpdateStatus = false ∧
    (Reconcile (okWorld deleting) demoRequest).trace.countP Call.isDestroy = 1 :=
  ⟨by decide, by decide,
    (C2_deletion_precedence (okWorld deleting) demoRequest deleting rfl (by decide)
      (by decide)).1,
    (C2_deletion_precedence (okWorld deleting) demoRequest deleting rfl (by decide)
      (by decide)).2.2.1,
    (C2_deletion_precedence (okWorld deleting) demoRequest deleting rfl (by decide)
      (by decide)).2.2.2 awsSecret demoPullSecret fullAWS rfl rfl rfl⟩

/-- C3: for every fetched resource with a non-empty infra identifier, no deletion marker
and an AWS platform section, the run upserts `CloudProviderConfigured` and submits it;
the condition is True/AsExpected exactly when the subnet identifier is present and at
least one IAM role is present, and False/MisConfigured otherwise; when the status
update succeeds the run returns a nil error and no requeue.  Any later pass over a
resource with the same, fully configured spec yields True/AsExpected again, whatever
status the earlier passes left. -/
theorem C3_validation_pass (w : World) (req : Request) (hc : HostedCluster)
    (pAWS : AWSPlatformSpec) (hget : w.getHostedCluster = .ok hc)
    (hid : hc.Spec.InfraID ≠ "") (hdel : hc.DeletionTimestamp = none)
    (haws : hc.Spec.Platform.AWS = some pAWS) :
    ∃ cond hc1 c1,
      (Reconcile w req).trace =
        [Call.getHostedCluster req.Namespace req.Name, Call.setStatusCondition cond,
          Call.updateStatus hc1] ∧
      cond.Typ = CloudProviderConfigured ∧
      cloudProviderCondition hc1 = some c1 ∧
      c1.Status = cond.Status ∧ c1.Reason = cond.Reason ∧
      ((subnetPresent pAWS ∧ 0 < pAWS.Roles.length) →
        cond.Status = ConditionTrue ∧ cond.Reason = CloudProviderConfiguredAsExpected) ∧
      (¬ (subnetPresent pAWS ∧ 0 < pAWS.Roles.length) →
        cond.Status = ConditionFalse ∧ cond.Reason = CloudProviderMisConfiguredReason) ∧
      (w.updateStatus = none → (Reconcile w req).out = .returned {} none) ∧
      (∀ (w2 : World) (hc2 : HostedCluster), w2.getHostedCluster = .ok hc2 →
        hc2.Spec = hc.Spec → hc2.DeletionTimestamp = none →
        (subnetPresent pAWS ∧ 0 < pAWS.Roles.length) →
        ∃ hc3 c3, submitted (Reconcile w2 req) = [hc3] ∧
          cloudProviderCondition hc3 = some c3 ∧
          c3.Status = ConditionTrue ∧ c3.Reason = CloudProviderConfiguredAsExpected) := by
  obtain ⟨c1, htrace, hfind, hst, hre⟩ := validation_verdict w req hc pAWS hget hid hdel haws
  refine ⟨validationCondition (initialCondition hc) pAWS,
    withCondition w.now hc (validationCondition (initialCondition hc) pAWS), c1,
    htrace, ?_, hfind, hst, hre, validationCondition_true _ pAWS,
    validationCondition_false _ pAWS, ?_, ?_⟩
  · unfold validationCondition initialCondition
    split <;> rfl
  · intro hupd
    rw [Reconcile_validation w req hc pAWS hget hid hdel haws, persistStatus_out, hupd]
  · intro w2 hc2 hget2 hspec hdel2 hfull
    have hid2 : hc2.Spec.InfraID ≠ "" := by rw [hspec]; exact hid
    have haws2 : hc2.Spec.Platform.AWS = some pAWS := by rw [hspec]; exact haws
    obtain ⟨c3, htrace2, hfind2, hst2, hre2⟩ :=
      validation_verdict w2 req hc2 pAWS hget2 hid2 hdel2 haws2
    have hv := validationCondition_true (initialCondition hc2) pAWS hfull
    refine ⟨_, c3, ?_, hfind2, hst2.trans hv.1, hre2.trans hv.2⟩
    simp [submitted, htrace2]

/-- C3 (witness): the provisioned, fully configured cluster `provisioned` is reported
True/AsExpected. -/
theorem C3_validation_pass_witness :
    provisioned.Spec.InfraID ≠ "" ∧ provisioned.DeletionTimestamp = none ∧
    provisioned.Spec.Platform.AWS = some fullAWS ∧
    ∃ cond hc1 c1,
      (Reconcile (okWorld provisioned) demoRequest).trace =
        [Call.getHostedCluster "clusters" "demo", Call.setStatusCondition cond,
          Call.updateStatus hc1] ∧
      cloudProviderCondition hc1 = some c1 ∧
      c1.Status = ConditionTrue ∧ c1.Reason = CloudProviderConfiguredAsExpected :=
  ⟨by decide, rfl, rfl,
    match C3_validation_pass (okWorld provisioned) demoRequest provisioned fullAWS rfl
        (by decide) rfl rfl with
    | ⟨cond, hc1, c1, h1, _, h3, h4, h5, h6, _⟩ =>
      ⟨cond, hc1, c1, h1, h3,
        h4.trans (h6 ⟨⟨_, _, _, rfl, rfl, rfl⟩, by decide⟩).1,
        h5.trans (h6 ⟨⟨_, _, _, rfl, rfl, rfl⟩, by decide⟩).2⟩⟩

/-- For an unprovisioned resource that is not being deleted, with both secrets
fetched and an AWS section, the run creates, re-fetches and writes the status. -/
theorem Reconcile_create (w : World) (req : Request) (hc : HostedCluster)
    (providerSecret pullSecret : Secret) (pAWS : AWSPlatformSpec)
    (hget : w.getHostedCluster = .ok hc) (hid : hc.Spec.InfraID = "")
    (hdel : hc.DeletionTimestamp = none)
    (hps : w.getProviderSecret = .ok providerSecret)
    (hpl : w.getPullSecret = .ok pullSecret) (haws : hc.Spec.Platform.AWS = some pAWS) :
    Reconcile w req =
      persistStatus w
        [Call.getHostedCluster req.Namespace req.Name, Call.getSecret hc.Namespace "aws",
          Call.getSecret hc.Namespace hc.Spec.PullSecret.Name,
          Call.createCluster (createOptions hc pAWS providerSecret pullSecret),
          Call.getHostedCluster req.Namespace req.Name]
        (afterRefetch w hc) (createCondition (initialCondition hc) w.createCluster)
        (.returned {} w.createCluster) := by
  rw [Reconcile_prepare w req hc hget (Or.inl hid),
    prepare_provision w req _ hc _ providerSecret pullSecret pAWS hps hpl haws]
  simp [provision, hdel, hid]

theorem createCondition_typ (hc : HostedCluster) (err : Option GoError) :
    (createCondition (initialCondition hc) err).Typ = CloudProviderConfigured := by
  cases err <;> rfl

/-- The `CloudProviderConfigured` entry of the object after the upsert of a condition
of that type. -/
theorem cloudProviderCondition_withCondition (now : Time) (hc : HostedCluster)
    (c : Condition) (htyp : c.Typ = CloudProviderConfigured) :
    ∃ c1, cloudProviderCondition (withCondition now hc c) = some c1 ∧
      c1.Status = c.Status ∧ c1.Reason = c.Reason ∧ c1.Message = c.Message ∧
      c1.ObservedGeneration = c.ObservedGeneration := by
  obtain ⟨c1, hfind, -, hst, hre, hme, hge⟩ :=
    find_SetStatusCondition now hc.Status.Conditions c
  rw [htyp] at hfind
  exact ⟨c1, hfind, hst, hre, hme, hge⟩

/-- C4 (as stated, refuted): create fails for the unprovisioned cluster and the status
update then hits a conflict; the run returns a requeue request with a nil error, so
the create error is not the returned error. -/
theorem C4_counterexample :
    unprovisioned.Spec.InfraID = "" ∧ unprovisioned.DeletionTimestamp = none ∧
    (Reconcile
        { okWorld unprovisioned with
          createCluster := some providerError, updateStatus := some conflictError }
        demoRequest).trace.countP Call.isCreate = 1 ∧
    (Reconcile
        { okWorld unprovisioned with
          createCluster := some providerError, updateStatus := some conflictError }
        demoRequest).out = .returned { Requeue := true } none := by
  decide

/-- C4 (amended): for every fetched resource with an empty infra identifier, no deletion
marker and an AWS platform section, for which both prerequisite secrets are fetched,
the run invokes create exactly once, re-fetches the resource, and submits a status
update whose `CloudProviderConfigured` condition is True/AsExpected with an empty
message if create returned no error, and False/MisConfigured with the create error's
text as message if create failed; when the status update succeeds, the run returns
the outcome of create: a nil error after a successful create, the create error after
a failed one. -/
theorem C4_create_outcome (w : World) (req : Request) (hc : HostedCluster)
    (providerSecret pullSecret : Secret) (pAWS : AWSPlatformSpec)
    (hget : w.getHostedCluster = .ok hc) (hid : hc.Spec.InfraID = "")
    (hdel : hc.DeletionTimestamp = none)
    (hps : w.getProviderSecret = .ok providerSecret)
    (hpl : w.getPullSecret = .ok pullSecret) (haws : hc.Spec.Platform.AWS = some pAWS) :
    ∃ cond hc1 c1,
      (Reconcile w req).trace =
        [Call.getHostedCluster req.Namespace req.Name, Call.getSecret hc.Namespace "aws",
          Call.getSecret hc.Namespace hc.Spec.PullSecret.Name,
          Call.createCluster (createOptions hc pAWS providerSecret pullSecret),
          Call.getHostedCluster req.Namespace req.Name,
          Call.setStatusCondition cond, Call.updateStatus hc1] ∧
      cond.Typ = CloudProviderConfigured ∧
      cloudProviderCondition hc1 = some c1 ∧
      c1.Status = cond.Status ∧ c1.Reason = cond.Reason ∧ c1.Message = cond.Message ∧
      (w.createCluster = none →
        cond.Status = ConditionTrue ∧ cond.Reason = CloudProviderConfiguredAsExpected ∧
        cond.Message = "" ∧
        (w.updateStatus = none → (Reconcile w req).out = .returned {} none)) ∧
      (∀ e, w.createCluster = some e →
        cond.Status = ConditionFalse ∧ cond.Reason = CloudProviderMisConfiguredReason ∧
        cond.Message = e.Error ∧
        (w.updateStatus = none → (Reconcile w req).out = .returned {} (some e))) := by
  have hrun := Reconcile_create w req hc providerSecret pullSecret pAWS hget hid hdel hps hpl haws
  obtain ⟨c1, hfind, hst, hre, hme, -⟩ :=
    cloudProviderCondition_withCondition w.now (afterRefetch w hc)
      (createCondition (initialCondition hc) w.createCluster)
      (createCondition_typ hc w.createCluster)
  refine ⟨createCondition (initialCondition hc) w.createCluster,
    withCondition w.now (afterRefetch w hc)
      (createCondition (initialCondition hc) w.createCluster), c1, ?_,
    createCondition_typ hc w.createCluster, hfind, hst, hre, hme, ?_, ?_⟩
  · rw [hrun, persistStatus_trace]
    rfl
  · intro hcr
    refine ⟨by rw [hcr]; rfl, by rw [hcr]; rfl, by rw [hcr]; rfl, ?_⟩
    intro hupd
    rw [hrun, persistStatus_out, hupd, hcr]
  · intro e hcr
    refine ⟨by rw [hcr]; rfl, by rw [hcr]; rfl, by rw [hcr]; rfl, ?_⟩
    intro hupd
    rw [hrun, persistStatus_out, hupd, hcr]

/-- C4 (witness): create fails for the unprovisioned cluster and the status update
succeeds; the failure is recorded and the create error is returned. -/
theorem C4_create_outcome_witness :
    unprovisioned.Spec.InfraID = "" ∧ unprovisioned.DeletionTimestamp = none ∧
    ∃ cond hc1 c1,
      (Reconcile { okWorld unprovisioned with createCluster := some providerError }
          demoRequest).trace =
        [Call.getHostedCluster "clusters" "demo", Call.getSecret "clusters" "aws",
          Call.getSecret "clusters" "pull-secret",
          Call.createCluster
            (createOptions unprovisioned { Region := "us-east-1" } awsSecret demoPullSecret),
          Call.getHostedCluster "clusters" "demo",
          Call.setStatusCondition cond, Call.updateStatus hc1] ∧
      cloudProviderCondition hc1 = some c1 ∧
      c1.Status = ConditionFalse ∧ c1.Message = "VPC limit exceeded" ∧
      (Reconcile { okWorld unprovisioned with createCluster := some providerError }
          demoRequest).out = .returned {} (some providerError) :=
  ⟨rfl, rfl,
    match C4_create_outcome { okWorld unprovisioned with createCluster := some providerError }
        demoRequest unprovisioned awsSecret demoPullSecret { Region := "us-east-1" }
        rfl rfl rfl rfl rfl rfl with
    | ⟨cond, hc1, c1, h1, _, h3, h4, _, h6, _, h8⟩ =>
      ⟨cond, hc1, c1, h1, h3, h4.trans (h8 providerError rfl).1,
        h6.trans (h8 providerError rfl).2.2.1, (h8 providerError rfl).2.2.2 rfl⟩⟩

/-- C5 (code evaluated at the failing inputs): an initial fetch that fails with a
timeout, which is not a not-found error, ends the run with a nil error and no
requeue; and a failed re-fetch after a successful create is ignored, the run ending
with a nil error and no requeue after the status update. -/
theorem C5_fetch_error_dropped :
    IsNotFound timeoutError = false ∧
    Reconcile { okWorld provisioned with getHostedCluster := .error timeoutError }
        demoRequest =
      ⟨[Call.getHostedCluster "clusters" "demo"], .returned {} none⟩ ∧
    (Reconcile { okWorld unprovisioned with refetch := .error timeoutError }
        demoRequest).out = .returned {} none := by
  decide

/-- C6: for every fetched resource with an empty infra identifier and no deletion
marker, if the fetch of the secret named "aws" or of the pull secret named by the
spec, both in the resource's namespace, fails, the run returns that fetch error,
invokes neither create nor destroy, upserts no condition and issues no status
update. -/
theorem C6_missing_secret (w : World) (req : Request) (hc : HostedCluster)
    (hget : w.getHostedCluster = .ok hc) (hid : hc.Spec.InfraID = "")
    (_hdel : hc.DeletionTimestamp = none)
    (hfail : (∃ e, w.getProviderSecret = .error e) ∨ (∃ e, w.getPullSecret = .error e)) :
    ∃ e, (Reconcile w req).out = .returned {} (some e) ∧
      ((w.getProviderSecret = .error e ∧
          (Reconcile w req).trace =
            [Call.getHostedCluster req.Namespace req.Name,
              Call.getSecret hc.Namespace "aws"]) ∨
        (∃ s, w.getProviderSecret = .ok s ∧ w.getPullSecret = .error e ∧
          (Reconcile w req).trace =
            [Call.getHostedCluster req.Namespace req.Name,
              Call.getSecret hc.Namespace "aws",
              Call.getSecret hc.Namespace hc.Spec.PullSecret.Name])) ∧
      (Reconcile w req).trace.any Call.isCreate = false ∧
      (Reconcile w req).trace.any Call.isDestroy = false ∧
      (Reconcile w req).trace.any Call.isSetStatusCondition = false ∧
      (Reconcile w req).trace.any Call.isUpdateStatus = false := by
  rw [Reconcile_prepare w req hc hget (Or.inl hid)]
  unfold prepare
  cases hps : w.getProviderSecret with
  | error e =>
    exact ⟨e, rfl, Or.inl ⟨rfl, rfl⟩, by simp [Call.isCreate], by simp [Call.isDestroy],
      by simp [Call.isSetStatusCondition], by simp [Call.isUpdateStatus]⟩
  | ok s =>
    cases hpl : w.getPullSecret with
    | error e =>
      exact ⟨e, rfl, Or.inr ⟨s, rfl, rfl, rfl⟩, by simp [Call.isCreate],
        by simp [Call.isDestroy], by simp [Call.isSetStatusCondition],
        by simp [Call.isUpdateStatus]⟩
    | ok s2 =>
      rcases hfail with ⟨e, he⟩ | ⟨e, he⟩
      · rw [hps] at he; cases he
      · rw [hpl] at he; cases he

/-- C6 (witness): the pull secret of the unprovisioned cluster is missing. -/
theorem C6_missing_secret_witness :
    unprovisioned.Spec.InfraID = "" ∧ unprovisioned.DeletionTimestamp = none ∧
    ∃ e, (Reconcile { okWorld unprovisioned with getPullSecret := .error secretNotFound }
          demoRequest).out = .returned {} (some e) ∧
      (Reconcile { okWorld unprovisioned with getPullSecret := .error secretNotFound }
          demoRequest).trace.any Call.isCreate = false ∧
      (Reconcile { okWorld unprovisioned with getPullSecret := .error secretNotFound }
          demoRequest).trace.any Call.isUpdateStatus = false :=
  ⟨rfl, rfl,
    match C6_missing_secret
        { okWorld unprovisioned with getPullSecret := .error secretNotFound }
        demoRequest unprovisioned rfl rfl rfl (Or.inr ⟨secretNotFound, rfl⟩) with
    | ⟨e, h1, _, h3, _, _, h6⟩ => ⟨e, h1, h3, h6⟩⟩

/-- The base object of the status write: the initial fetch on the validation path,
the object after the re-fetch on the create path. -/
theorem submitted_persistStatus (w : World) (trace : List Call) (hc : HostedCluster)
    (condition : Condition) (onSuccess : Outcome)
    (ht : trace.any Call.isUpdateStatus = false) :
    submitted (persistStatus w trace hc condition onSuccess) =
        [withCondition w.now hc condition] ∧
      (persistStatus w trace hc condition onSuccess).trace.countP Call.isUpdateStatus = 1 := by
  unfold submitted
  rw [persistStatus_trace]
  have h0 : ∀ c ∈ trace, Call.isUpdateStatus c = false := by
    simpa using ht
  have h1 : List.filterMap (fun c => match c with
      | Call.updateStatus hc => some hc
      | _ => none) trace = [] := by
    rw [List.filterMap_eq_nil_iff]
    intro c hc
    have := h0 c hc
    cases c <;> simp_all [Call.isUpdateStatus]
  have h2 : trace.countP Call.isUpdateStatus = 0 := by
    rw [List.countP_eq_zero]
    intro c hc
    simp [h0 c hc]
  constructor
  · simp [List.filterMap_append, h1]
  · simp [List.countP_append, h2, List.countP_cons, Call.isUpdateStatus,
      Call.isSetStatusCondition]

/-- Every run either issues no status update at all, or is a status write of a
`CloudProviderConfigured` condition stamped with the generation of the object fetched
at the start, applied to the object last fetched. -/
theorem Reconcile_status_write (w : World) (req : Request) (hc : HostedCluster)
    (hget : w.getHostedCluster = .ok hc) :
    ((Reconcile w req).trace.any Call.isUpdateStatus = false) ∨
    ∃ trace condition onSuccess,
      Reconcile w req =
        persistStatus w trace (if hc.Spec.InfraID = "" then afterRefetch w hc else hc)
          condition onSuccess ∧
      trace.any Call.isUpdateStatus = false ∧
      condition.Typ = CloudProviderConfigured ∧
      condition.ObservedGeneration = hc.Generation := by
  by_cases hv : hc.Spec.InfraID ≠ "" ∧ hc.DeletionTimestamp = none ∧
      hc.Spec.Platform.AWS ≠ none
  · obtain ⟨hid, hdel, haws⟩ := hv
    obtain ⟨pAWS, hp⟩ := Option.ne_none_iff_exists'.1 haws
    right
    refine ⟨[Call.getHostedCluster req.Namespace req.Name],
      validationCondition (initialCondition hc) pAWS, .returned {} none, ?_, ?_, ?_, ?_⟩
    · rw [Reconcile_validation w req hc pAWS hget hid hdel hp, if_neg hid]
    · simp [Call.isUpdateStatus]
    · unfold validationCondition initialCondition
      split <;> rfl
    · unfold validationCondition initialCondition
      split <;> rfl
  · have hprep : Reconcile w req =
        prepare w req [Call.getHostedCluster req.Namespace req.Name] hc
          (initialCondition hc) := by
      apply Reconcile_prepare w req hc hget
      by_cases h1 : hc.Spec.InfraID = ""
      · exact Or.inl h1
      · by_cases h2 : hc.DeletionTimestamp = none
        · right; right
          by_contra h3
          exact hv ⟨h1, h2, h3⟩
        · exact Or.inr (Or.inl h2)
    rw [hprep]
    cases hps : w.getProviderSecret with
    | error e => left; simp [prepare, hps, Call.isUpdateStatus]
    | ok providerSecret =>
      cases hpl : w.getPullSecret with
      | error e => left; simp [prepare, hps, hpl, Call.isUpdateStatus]
      | ok pullSecret =>
        cases haws : hc.Spec.Platform.AWS with
        | none => left; simp [prepare, hps, hpl, haws, Call.isUpdateStatus]
        | some pAWS =>
          rw [prepare_provision w req _ hc _ providerSecret pullSecret pAWS hps hpl haws]
          cases hdel : hc.DeletionTimestamp with
          | some t =>
            left
            cases hd : w.destroyCluster <;>
              simp [provision, hdel, hd, Call.isUpdateStatus]
          | none =>
            by_cases hid : hc.Spec.InfraID = ""
            · right
              refine ⟨[Call.getHostedCluster req.Namespace req.Name] ++
                  [Call.getSecret hc.Namespace "aws"] ++
                  [Call.getSecret hc.Namespace hc.Spec.PullSecret.Name] ++
                  [Call.createCluster (createOptions hc pAWS providerSecret pullSecret),
                    Call.getHostedCluster req.Namespace req.Name],
                createCondition (initialCondition hc) w.createCluster,
                .returned {} w.createCluster, ?_, ?_,
                createCondition_typ hc w.createCluster, ?_⟩
              · simp only [provision, hdel, hid, if_true]
              · simp [Call.isUpdateStatus]
              · cases w.createCluster <;> rfl
            · left
              simp [provision, hdel, hid, Call.isUpdateStatus]

/-- A status update is issued on exactly two paths: the validation path, and the
create path once both secrets are fetched (the AWS section being present). -/
theorem status_update_iff (w : World) (req : Request) (hc : HostedCluster)
    (hget : w.getHostedCluster = .ok hc) :
    (Reconcile w req).trace.any Call.isUpdateStatus = true ↔
      hc.DeletionTimestamp = none ∧ hc.Spec.Platform.AWS ≠ none ∧
        (hc.Spec.InfraID ≠ "" ∨
          ((∃ s, w.getProviderSecret = .ok s) ∧ (∃ s, w.getPullSecret = .ok s))) := by
  constructor
  · intro h
    by_contra hn
    have : (Reconcile w req).trace.any Call.isUpdateStatus = false := by
      by_cases hdel : hc.DeletionTimestamp = none
      · by_cases haws : hc.Spec.Platform.AWS = none
        · rw [Reconcile_prepare w req hc hget (Or.inr (Or.inr haws))]
          unfold prepare
          cases w.getProviderSecret <;> cases w.getPullSecret <;>
            simp [haws, Call.isUpdateStatus]
        · by_cases hid : hc.Spec.InfraID = ""
          · rw [Reconcile_prepare w req hc hget (Or.inl hid)]
            unfold prepare
            cases hps : w.getProviderSecret with
            | error e => simp [Call.isUpdateStatus]
            | ok s =>
              cases hpl : w.getPullSecret with
              | error e => simp [Call.isUpdateStatus]
              | ok s2 =>
                exact absurd ⟨hdel, haws, Or.inr ⟨⟨s, hps⟩, ⟨s2, hpl⟩⟩⟩ hn
          · exact absurd ⟨hdel, haws, Or.inl hid⟩ hn
      · rw [Reconcile_prepare w req hc hget (Or.inr (Or.inl hdel))]
        exact (prepare_no_status w req _ hc _ (Or.inr hdel)
          (by simp [Call.isSetStatusCondition]) (by simp [Call.isUpdateStatus])).2
    rw [this] at h
    cases h
  · rintro ⟨hdel, haws, hpath⟩
    obtain ⟨pAWS, hp⟩ := Option.ne_none_iff_exists'.1 haws
    by_cases hid : hc.Spec.InfraID = ""
    · rcases hpath with h | ⟨⟨s, hps⟩, ⟨s2, hpl⟩⟩
      · exact absurd hid h
      · rw [Reconcile_create w req hc s s2 pAWS hget hid hdel hps hpl hp,
          persistStatus_trace]
        simp [Call.isUpdateStatus]
    · rw [Reconcile_validation w req hc pAWS hget hid hdel hp, persistStatus_trace]
      simp [Call.isUpdateStatus]

theorem submitted_nil (r : Run) (h : r.trace.any Call.isUpdateStatus = false) :
    submitted r = [] := by
  unfold submitted
  rw [List.filterMap_eq_nil_iff]
  intro c hc
  have h0 : ∀ c ∈ r.trace, Call.isUpdateStatus c = false := by
    simpa using h
  have := h0 c hc
  cases c <;> simp_all [Call.isUpdateStatus]

/-- The object submitted by a run, if any: the upsert of a `CloudProviderConfigured`
condition, stamped with the generation of the initial fetch, into the object last
fetched. -/
theorem submitted_eq (w : World) (req : Request) (hc hc1 : HostedCluster)
    (hget : w.getHostedCluster = .ok hc) (hsub : hc1 ∈ submitted (Reconcile w req)) :
    ∃ condition,
      hc1 = withCondition w.now (if hc.Spec.InfraID = "" then afterRefetch w hc else hc)
        condition ∧
      condition.Typ = CloudProviderConfigured ∧
      condition.ObservedGeneration = hc.Generation := by
  rcases Reconcile_status_write w req hc hget with h | ⟨trace, condition, o, hrun, ht, htyp, hgen⟩
  · rw [submitted_nil _ h] at hsub
    cases hsub
  · rw [hrun, (submitted_persistStatus w trace _ condition o ht).1] at hsub
    exact ⟨condition, by simpa using hsub, htyp, hgen⟩

/-- Teardown when the AWS section is present: for every fetched resource with a
deletion marker and an AWS platform section for which both prerequisite secrets are
fetched, destroy is invoked exactly once, with the infra identifier, namespace and
name of the resource, the region and base domain of the spec, the key pair of the
provider secret, IAM preservation off and a grace period of ten minutes; no status
update is issued; the result is a nil error when destroy succeeds and an error
wrapping the destroy error when it fails. -/
theorem teardown_with_aws_section (w : World) (req : Request) (hc : HostedCluster)
    (providerSecret pullSecret : Secret) (pAWS : AWSPlatformSpec)
    (hget : w.getHostedCluster = .ok hc) (hdel : hc.DeletionTimestamp ≠ none)
    (hps : w.getProviderSecret = .ok providerSecret)
    (hpl : w.getPullSecret = .ok pullSecret) (haws : hc.Spec.Platform.AWS = some pAWS) :
    ∃ opts,
      (Reconcile w req).trace =
        [Call.getHostedCluster req.Namespace req.Name, Call.getSecret hc.Namespace "aws",
          Call.getSecret hc.Namespace hc.Spec.PullSecret.Name, Call.destroyCluster opts] ∧
      opts.InfraID = hc.Spec.InfraID ∧ opts.Namespace = hc.Namespace ∧
      opts.Name = hc.Name ∧ opts.AWSPlatform.Region = pAWS.Region ∧
      opts.AWSPlatform.BaseDomain = hc.Spec.DNS.BaseDomain ∧
      opts.AWSPlatform.AWSKey = providerSecret.lookup "aws_access_key_id" ∧
      opts.AWSPlatform.AWSSecretKey = providerSecret.lookup "aws_secret_access_key" ∧
      opts.AWSPlatform.PreserveIAM = false ∧
      opts.ClusterGracePeriod = 600000000000 ∧
      (w.destroyCluster = none → (Reconcile w req).out = .returned {} none) ∧
      (∀ e, w.destroyCluster = some e →
        (Reconcile w req).out =
          .returned {} (some (.wrapf "failed to update status: " e))) := by
  rw [Reconcile_prepare w req hc hget (Or.inr (Or.inl hdel)),
    prepare_provision w req _ hc _ providerSecret pullSecret pAWS hps hpl haws]
  refine ⟨destroyOptions (createOptions hc pAWS providerSecret pullSecret), ?_, rfl, rfl,
    rfl, rfl, rfl, rfl, rfl, rfl, by simp [destroyOptions, Minute], ?_, ?_⟩
  · unfold provision
    cases hd : hc.DeletionTimestamp with
    | none => exact absurd hd hdel
    | some t => cases w.destroyCluster <;> rfl
  · intro h
    unfold provision
    cases hd : hc.DeletionTimestamp with
    | none => exact absurd hd hdel
    | some t => simp [h]
  · intro e h
    unfold provision
    cases hd : hc.DeletionTimestamp with
    | none => exact absurd hd hdel
    | some t => simp [h]

/-- C7 (code evaluated at the failing input): the cluster `deletingAzure` carries a
deletion marker and no AWS section; with both secrets fetched, the run panics on the
nil dereference `hc.Spec.Platform.AWS.Region` and destroy is never invoked. -/
theorem C7_teardown_nil_dereference :
    deletingAzure.DeletionTimestamp ≠ none ∧ deletingAzure.Spec.Platform.AWS = none ∧
    Reconcile (okWorld deletingAzure) demoRequest =
      ⟨[Call.getHostedCluster "clusters" "demo", Call.getSecret "clusters" "aws",
          Call.getSecret "clusters" "pull-secret"],
        .panicked nilDereference⟩ ∧
    (Reconcile (okWorld deletingAzure) demoRequest).trace.countP Call.isDestroy = 0 := by
  decide

/-- C8: whenever a run issues a status update (on the validation path or on the create
path) and the update fails, the run makes exactly one write attempt; if the failure
is a conflict it returns a nil error with `Requeue = true`, and if it is any other
error it returns an error wrapping it. -/
theorem C8_conflict_handling (w : World) (req : Request) (e : GoError)
    (hupd : (Reconcile w req).trace.any Call.isUpdateStatus = true)
    (hfail : w.updateStatus = some e) :
    (Reconcile w req).trace.countP Call.isUpdateStatus = 1 ∧
    (IsConflict e = true → (Reconcile w req).out = .returned { Requeue := true } none) ∧
    (IsConflict e = false →
      (Reconcile w req).out =
        .returned {} (some (.wrapf "failed to update status: " e))) := by
  cases hget : w.getHostedCluster with
  | error err =>
    have : (Reconcile w req).trace.any Call.isUpdateStatus = false := by
      simp [Reconcile, hget, Call.isUpdateStatus]
    rw [this] at hupd
    cases hupd
  | ok hc =>
    rcases Reconcile_status_write w req hc hget with h | ⟨trace, condition, o, hrun, ht, -, -⟩
    · rw [h] at hupd
      cases hupd
    · rw [hrun]
      refine ⟨(submitted_persistStatus w trace _ condition o ht).2, ?_, ?_⟩
      · intro hc1
        rw [persistStatus_out, hfail]
        simp [hc1]
      · intro hc1
        rw [persistStatus_out, hfail]
        simp [hc1]

/-- C8 (witness): the status update of the validation pass over `provisioned` hits a
conflict and the run requeues after one write; the status update of the create pass
over `unprovisioned` is rejected with code 409 and no reason and the run requeues
too; rejected because the server is unavailable, it returns the wrapped error. -/
theorem C8_conflict_handling_witness :
    (Reconcile { okWorld provisioned with updateStatus := some conflictError }
        demoRequest).trace.any Call.isUpdateStatus = true ∧
    IsConflict conflictError = true ∧
    (Reconcile { okWorld provisioned with updateStatus := some conflictError }
        demoRequest).trace.countP Call.isUpdateStatus = 1 ∧
    (Reconcile { okWorld provisioned with updateStatus := some conflictError }
        demoRequest).out = .returned { Requeue := true } none ∧
    IsConflict bareConflictError = true ∧
    (Reconcile { okWorld unprovisioned with updateStatus := some bareConflictError }
        demoRequest).out = .returned { Requeue := true } none ∧
    IsConflict unavailableError = false ∧
    (Reconcile { okWorld unprovisioned with updateStatus := some unavailableError }
        demoRequest).out =
      .returned {} (some (.wrapf "failed to update status: " unavailableError)) :=
  ⟨by decide, by decide,
    (C8_conflict_handling { okWorld provisioned with updateStatus := some conflictError }
      demoRequest conflictError (by decide) rfl).1,
    (C8_conflict_handling { okWorld provisioned with updateStatus := some conflictError }
      demoRequest conflictError (by decide) rfl).2.1 (by decide),
    by decide,
    (C8_conflict_handling { okWorld unprovisioned with updateStatus := some bareConflictError }
      demoRequest bareConflictError (by decide) rfl).2.1 (by decide),
    by decide,
    (C8_conflict_handling { okWorld unprovisioned with updateStatus := some unavailableError }
      demoRequest unavailableError (by decide) rfl).2.2 (by decide)⟩

/-- C9: in every run that submits a status update, the `CloudProviderConfigured`
condition of the submitted object has as observed generation the generation of the
object fetched at the start of the run, on the validation path and on the create
path alike, whatever the re-fetch returned. -/
theorem C9_observed_generation (w : World) (req : Request) (hc hc1 : HostedCluster)
    (hget : w.getHostedCluster = .ok hc) (hsub : hc1 ∈ submitted (Reconcile w req)) :
    ∃ c1, cloudProviderCondition hc1 = some c1 ∧
      c1.ObservedGeneration = hc.Generation := by
  obtain ⟨condition, rfl, htyp, hgen⟩ := submitted_eq w req hc hc1 hget hsub
  obtain ⟨c1, hfind, -, -, -, hg⟩ :=
    cloudProviderCondition_withCondition w.now
      (if hc.Spec.InfraID = "" then afterRefetch w hc else hc) condition htyp
  exact ⟨c1, hfind, hg.trans hgen⟩

/-- C9 (witness): the unprovisioned cluster is fetched at generation 3 and re-fetched
after create at generation 4; the submitted condition is stamped with generation 3. -/
theorem C9_observed_generation_witness :
    unprovisioned.Generation = 3 ∧ unprovisionedLater.Generation = 4 ∧
    withCondition 9 unprovisionedLater (createCondition (initialCondition unprovisioned) none) ∈
      submitted (Reconcile { okWorld unprovisioned with refetch := .ok unprovisionedLater }
        demoRequest) ∧
    ∃ c1, cloudProviderCondition
        (withCondition 9 unprovisionedLater
          (createCondition (initialCondition unprovisioned) none)) = some c1 ∧
      c1.ObservedGeneration = 3 :=
  ⟨rfl, rfl, by decide,
    C9_observed_generation { okWorld unprovisioned with refetch := .ok unprovisionedLater }
      demoRequest unprovisioned _ rfl (by decide)⟩

/-- C10: in every run that submits a status update, the submitted object is the object
last fetched with nothing but its condition list changed, so the phase is kept.  The
object last fetched is the initially fetched one on the validation path; on the
create path it is the object the re-fetch returned, or the initially fetched one
when the re-fetch failed.  The conditions of every other type are kept with their
values and in their order; when no `CloudProviderConfigured` entry was present one
is appended at the end, and when one was present the first such entry is replaced
where it stands. -/
theorem C10_upsert_frame (w : World) (req : Request) (hc hc1 : HostedCluster)
    (hget : w.getHostedCluster = .ok hc) (hsub : hc1 ∈ submitted (Reconcile w req)) :
    ∃ base,
      (hc.Spec.InfraID ≠ "" → base = hc) ∧
      (hc.Spec.InfraID = "" → ∀ fresh, w.refetch = .ok fresh → base = fresh) ∧
      (hc.Spec.InfraID = "" → ∀ err, w.refetch = .error err → base = hc) ∧
      hc1 = { base with Status := { base.Status with Conditions := hc1.Status.Conditions } } ∧
      hc1.Status.Phase = base.Status.Phase ∧
      hc1.Status.Conditions.filter (fun x => decide (x.Typ ≠ CloudProviderConfigured)) =
        base.Status.Conditions.filter (fun x => decide (x.Typ ≠ CloudProviderConfigured)) ∧
      ((∀ x ∈ base.Status.Conditions, x.Typ ≠ CloudProviderConfigured) →
        ∃ c1, c1.Typ = CloudProviderConfigured ∧
          hc1.Status.Conditions = base.Status.Conditions ++ [c1]) ∧
      ((∃ x ∈ base.Status.Conditions, x.Typ = CloudProviderConfigured) →
        ∃ pre old post c1, base.Status.Conditions = pre ++ old :: post ∧
          (∀ x ∈ pre, x.Typ ≠ CloudProviderConfigured) ∧
          old.Typ = CloudProviderConfigured ∧ c1.Typ = CloudProviderConfigured ∧
          hc1.Status.Conditions = pre ++ c1 :: post) := by
  obtain ⟨condition, rfl, htyp, -⟩ := submitted_eq w req hc hc1 hget hsub
  refine ⟨if hc.Spec.InfraID = "" then afterRefetch w hc else hc, ?_, ?_, ?_, rfl, rfl,
    ?_, ?_, ?_⟩
  · intro h
    rw [if_neg h]
  · intro h fresh hfresh
    rw [if_pos h]
    unfold afterRefetch
    rw [hfresh]
  · intro h err herr
    rw [if_pos h]
    unfold afterRefetch
    rw [herr]
  · have := SetStatusCondition_filter w.now
      (if hc.Spec.InfraID = "" then afterRefetch w hc else hc).Status.Conditions condition
    rw [htyp] at this
    exact this
  · intro habs
    rw [← htyp] at habs
    refine ⟨_, ?_, SetStatusCondition_absent w.now _ condition habs⟩
    exact htyp
  · intro hex
    obtain ⟨pre, old, post, hsplit, hpre, hold⟩ :=
      exists_first_of_type _ CloudProviderConfigured hex
    refine ⟨pre, old, post, mergeCondition w.now old condition, hsplit, hpre, hold, ?_, ?_⟩
    · rw [mergeCondition_typ, hold]
    · show SetStatusCondition w.now
        (if hc.Spec.InfraID = "" then afterRefetch w hc else hc).Status.Conditions
        condition = _
      rw [hsplit]
      rw [← htyp] at hpre hold
      exact SetStatusCondition_present w.now pre post old condition hpre hold

/-- C10 (witness): the create pass over `unprovisioned`, whose re-fetch returns
`unprovisionedLater` (phase INFRA, one condition of another type): the submitted
object keeps the phase of the re-fetched object and its condition list is the
re-fetched list followed by the new `CloudProviderConfigured` entry. -/
theorem C10_upsert_frame_witness :
    withCondition 9 unprovisionedLater (createCondition (initialCondition unprovisioned) none) ∈
      submitted (Reconcile { okWorld unprovisioned with refetch := .ok unprovisionedLater }
        demoRequest) ∧
    unprovisioned.Status.Conditions = [otherCondition, staleCondition] ∧
    unprovisionedLater.Status.Conditions = [otherCondition] ∧
    (withCondition 9 unprovisionedLater
        (createCondition (initialCondition unprovisioned) none)).Status.Phase = "INFRA" ∧
    ∃ c1, c1.Typ = CloudProviderConfigured ∧
      (withCondition 9 unprovisionedLater
        (createCondition (initialCondition unprovisioned) none)).Status.Conditions =
        [otherCondition] ++ [c1] :=
  ⟨by decide, rfl, rfl,
    match C10_upsert_frame { okWorld unprovisioned with refetch := .ok unprovisionedLater }
        demoRequest unprovisioned _ rfl
        (show withCondition 9 unprovisionedLater
            (createCondition (initialCondition unprovisioned) none) ∈
          submitted (Reconcile { okWorld unprovisioned with refetch := .ok unprovisionedLater }
            demoRequest) by decide) with
    | ⟨_, _, hfresh, _, _, hphase, _, _, _⟩ => by
      rw [hfresh rfl unprovisionedLater rfl] at hphase
      exact hphase,
    match C10_upsert_frame { okWorld unprovisioned with refetch := .ok unprovisionedLater }
        demoRequest unprovisioned _ rfl
        (show withCondition 9 unprovisionedLater
            (createCondition (initialCondition unprovisioned) none) ∈
          submitted (Reconcile { okWorld unprovisioned with refetch := .ok unprovisionedLater }
            demoRequest) by decide) with
    | ⟨_, _, hfresh, _, _, _, _, habs, _⟩ => by
      rw [hfresh rfl unprovisionedLater rfl] at habs
      exact habs (by decide)⟩

end Hypershift
